import Mathlib

/-!
Shallow embedding of the booking-availability and payment-lifecycle logic of
the `alx_travel_app` repository (Django app `listings`).

Rows of the relational store are Lean structures mirroring the model fields of
`listings/models.py`; dates are day numbers (`Int`, matching `datetime.date`
ordering and subtraction), money amounts are `Int`, and UUID identifiers are
`Nat`.  Each Django/DRF operation the claims touch is embedded as an explicit
state-passing function over a `DB` value; fallible operations return `Except`
or a result sum.  Database constraint checks (NOT NULL, PRIMARY KEY, UNIQUE,
one-to-one) are performed by the insert functions, the way the SQL layer
enforces them on `INSERT`.
-/

deriving instance DecidableEq for Except

namespace AlxTravel

/-- Booking.STATUS_CHOICES (models.py). -/
inductive BookingStatus
  | pending
  | confirmed
  | canceled
  deriving DecidableEq, Repr

/-- Payment.PAYMENT_STATUS_CHOICES (models.py). -/
inductive PaymentStatus
  | pending
  | completed
  | failed
  deriving DecidableEq, Repr

/-- Listing row (models.py): `property_id`, `host`, `pricepernight`
(name/description/location carry no logic and are omitted). -/
structure Listing where
  property_id : Nat
  host : Nat
  pricepernight : Int
  deriving DecidableEq, Repr

/-- Booking row (models.py).  The `property` foreign-key column is NOT NULL in
the schema, but the in-memory instance handed to `save()` can hold `None`
(the database rejects it at insert), hence `Option Nat` here. -/
structure Booking where
  booking_id : Nat
  property : Option Nat
  user : Nat
  start_date : Int
  end_date : Int
  status : BookingStatus
  deriving DecidableEq, Repr

/-- Payment row (models.py): `booking` is a `OneToOneField(Booking)` and
`booking_reference` is declared `unique=True`. -/
structure Payment where
  payment_id : Nat
  booking : Nat
  amount : Int
  transaction_id : Option String
  booking_reference : String
  status : PaymentStatus
  payment_method : String
  deriving DecidableEq, Repr

/-- The relational store: one list per table. -/
structure DB where
  listings : List Listing
  bookings : List Booking
  payments : List Payment
  deriving DecidableEq, Repr

def emptyDB : DB := ⟨[], [], []⟩

/-- Embedding of `Booking.number_of_nights` (models.py): `(end_date - start_date).days`.
The source guards against unset dates, but both columns are non-nullable. -/
def number_of_nights (b : Booking) : Int :=
  b.end_date - b.start_date

/-- Embedding of `Booking.total_price` (models.py): `number_of_nights * property.pricepernight`,
resolving the foreign key (a dangling key, which the schema forbids, yields 0). -/
def total_price (db : DB) (b : Booking) : Int :=
  match db.listings.find? (fun l => some l.property_id == b.property) with
  | some l => number_of_nights b * l.pricepernight
  | none => 0

/-- The half-open interval comparison shared by every overlap queryset in the
source: `start_date__lt=end_date, end_date__gt=start_date`. -/
def overlapsHalfOpen (oStart oEnd s e : Int) : Bool :=
  decide (oStart < e) && decide (oEnd > s)

/-- The two `ValidationError` messages of the booking validations. -/
inductive VErr
  | dateOrder
  | overlap
  deriving DecidableEq, Repr

/-- The queryset of `Booking.clean` (models.py lines 108-112): every booking of
the property whose range overlaps, with no restriction on `status`. -/
def cleanOverlapQuery (db : DB) (b : Booking) : List Booking :=
  db.bookings.filter (fun o =>
    o.property == b.property && overlapsHalfOpen o.start_date o.end_date b.start_date b.end_date)

/-- Embedding of `Booking.clean` (models.py lines 103-115): date-order check first, then the
overlap queryset's `exists()`. -/
def clean (db : DB) (b : Booking) : Except VErr Unit :=
  if b.start_date ≥ b.end_date then .error .dateOrder
  else if (cleanOverlapQuery db b).isEmpty then .ok () else .error .overlap

/-- The `attrs` dictionary reaching a serializer `validate`; absent keys are
`none` (partial updates omit fields). -/
structure BookingAttrs where
  start_date : Option Int
  end_date : Option Int
  property_id : Option Nat
  user_id : Option Nat
  status : Option BookingStatus
  deriving DecidableEq, Repr

/-- The queryset of `BookingDetailSerializer.validate` (serializers.py lines
189-198): overlapping bookings of the property restricted to
`status='confirmed'`, then, when updating, `exclude(booking_id=instance.booking_id)`. -/
def detailOverlapQuery (db : DB) (inst : Option Nat) (pid : Nat) (s e : Int) : List Booking :=
  let q := db.bookings.filter (fun o =>
    o.property == some pid && overlapsHalfOpen o.start_date o.end_date s e
      && o.status == BookingStatus.confirmed)
  match inst with
  | some iid => q.filter (fun o => o.booking_id != iid)
  | none => q

/-- Embedding of `BookingDetailSerializer.validate` (serializers.py lines 177-203).
`inst` is `self.instance`'s booking id when updating. -/
def bookingDetailValidate (db : DB) (inst : Option Nat) (a : BookingAttrs) :
    Except VErr BookingAttrs :=
  match a.start_date, a.end_date with
  | some s, some e =>
    if s ≥ e then .error .dateOrder
    else
      match a.property_id with
      | some pid =>
        if (detailOverlapQuery db inst pid s e).isEmpty then .ok a else .error .overlap
      | none => .ok a
  | _, _ => .ok a

/-- The `BookingListSerializer` (serializers.py lines 121-145) declares no
`validate`: object-level validation passes any attrs through unchanged. -/
def bookingListValidate (a : BookingAttrs) : Except VErr BookingAttrs := .ok a

/-- The availability predicate as the specification words it: a conflict iff
some booking of the property with status pending or confirmed overlaps the
candidate half-open range.  Declared for comparison with the two checks the
source actually implements. -/
def specActiveOverlapConflict (db : DB) (pid : Nat) (s e : Int) : Bool :=
  db.bookings.any (fun o =>
    o.property == some pid
      && (o.status == BookingStatus.pending || o.status == BookingStatus.confirmed)
      && overlapsHalfOpen o.start_date o.end_date s e)

/-- Constraint failures raised by the SQL layer on `INSERT`. -/
inductive DBErr
  | notNullViolation
  | uniqueViolation
  deriving DecidableEq, Repr

/-- An `INSERT` into the booking table: the schema requires `property` NOT NULL
and a fresh primary key. -/
def insertBooking (db : DB) (b : Booking) : Except DBErr DB :=
  if b.property = none then .error .notNullViolation
  else if db.bookings.any (fun o => o.booking_id == b.booking_id) then .error .uniqueViolation
  else .ok { db with bookings := db.bookings ++ [b] }

/-- An `INSERT` into the payment table: fresh primary key, the one-to-one
constraint on `booking` (a unique foreign key), and `unique=True` on
`booking_reference` (models.py lines 165-169). -/
def insertPayment (db : DB) (p : Payment) : Except DBErr DB :=
  if db.payments.any (fun q =>
      q.payment_id == p.payment_id || q.booking == p.booking
        || q.booking_reference == p.booking_reference) then
    .error .uniqueViolation
  else .ok { db with payments := db.payments ++ [p] }

/-- Attributes available on a `Booking` instance: the model's columns plus its
`number_of_nights` and `total_price` properties.  The primary key is
`booking_id`; with an explicit primary key Django adds no `id` attribute. -/
def bookingAttributeNames : List String :=
  ["booking_id", "property", "user", "start_date", "end_date", "status",
   "created_at", "updated_at", "number_of_nights", "total_price"]

/-- Attributes available on a `Payment` instance (models.py lines 158-179):
there is a `booking_reference` column but no `reference`. -/
def paymentAttributeNames : List String :=
  ["payment_id", "booking", "amount", "transaction_id", "booking_reference",
   "status", "payment_method", "created_at", "updated_at"]

/-- Attributes of the custom `User` model (models.py lines 10-49; `first_name`
and `last_name` come from `AbstractUser`, `username` is removed). -/
def userAttributeNames : List String :=
  ["user_id", "email", "phone_number", "role", "first_name", "last_name",
   "password", "created_at", "updated_at"]

/-- A Python attribute access: the name itself on success, an
`AttributeError` carrying the name otherwise. -/
def readAttr (attrs : List String) (name : String) : Except String String :=
  if attrs.contains name then .ok name else .error name

/-- A booking-creation request body together with `request.user`.  The client
may well send a property id; whether any serializer field receives it is part
of the embedded create path. -/
structure CreateRequest where
  property_id : Option Nat
  start_date : Int
  end_date : Int
  status : Option BookingStatus
  user : Nat
  deriving DecidableEq, Repr

/-- Errors surfacing from the booking-create endpoint. -/
inductive ApiErr
  | validation (e : VErr)
  | integrity (e : DBErr)
  | attributeMissing (name : String)
  deriving DecidableEq, Repr

/-- Result of one POST /api/bookings/ request: the store, the queue of booking
ids handed to `send_booking_confirmation_email.delay`, and the outcome. -/
structure CreateOutcome where
  db : DB
  emailQueue : List Nat
  result : Except ApiErr Nat
  deriving DecidableEq, Repr

/-- POST /api/bookings/ (views.py lines 29-49): `BookingViewSet` with
`serializer_class = BookingListSerializer`.  The serializer's writable fields
are only `start_date`, `end_date` and `status` (serializers.py lines 121-145:
every property/user field is read-only and no `property` field exists), it
defines no `validate`, and `Booking.clean` is not called on this path.
`perform_create` runs `serializer.save(user=self.request.user)` — an insert
whose `property` column is never populated — and then evaluates `booking.id`
before enqueueing the Celery task. -/
def bookingCreateViaApi (db : DB) (queue : List Nat) (r : CreateRequest) (newId : Nat) :
    CreateOutcome :=
  match bookingListValidate
      { start_date := some r.start_date, end_date := some r.end_date,
        property_id := none, user_id := none, status := r.status } with
  | .error e => ⟨db, queue, .error (.validation e)⟩
  | .ok a =>
    let row : Booking :=
      { booking_id := newId, property := none, user := r.user,
        start_date := r.start_date, end_date := r.end_date,
        status := a.status.getD .pending }
    match insertBooking db row with
    | .error e => ⟨db, queue, .error (.integrity e)⟩
    | .ok db' =>
      match readAttr bookingAttributeNames "id" with
      | .error n => ⟨db', queue, .error (.attributeMissing n)⟩
      | .ok _ => ⟨db', queue ++ [newId], .ok newId⟩

/-- PUT/PATCH /api/bookings/{id}/ through `BookingListSerializer`: no
object-level validation; the writable fields of the matched row are updated. -/
def bookingUpdateViaApi (db : DB) (bid : Nat) (s e : Int) (st : BookingStatus) : DB :=
  { db with bookings := db.bookings.map (fun o =>
      if o.booking_id == bid then { o with start_date := s, end_date := e, status := st } else o) }

/-- The write `payment.status = st; payment.save()` as one committed update. -/
def setPaymentStatus (db : DB) (pid : Nat) (st : PaymentStatus) : DB :=
  { db with payments := db.payments.map (fun q =>
      if q.payment_id == pid then { q with status := st } else q) }

/-- The write `payment.transaction_id = tx; payment.save()` as one committed update. -/
def setPaymentTx (db : DB) (pid : Nat) (tx : String) : DB :=
  { db with payments := db.payments.map (fun q =>
      if q.payment_id == pid then { q with transaction_id := some tx } else q) }

/-- The write `booking.status = st; booking.save()` as one committed update. -/
def setBookingStatus (db : DB) (bid : Nat) (st : BookingStatus) : DB :=
  { db with bookings := db.bookings.map (fun o =>
      if o.booking_id == bid then { o with status := st } else o) }

/-- Payload construction of `PaymentViewSet.initiate_payment` (views.py lines
82-95), embedded as the ordered sequence of attribute reads the dict literal
performs; the first failing read raises `AttributeError`.  The reads, in
source order: `booking.total_price`, `request.user.email`,
`request.user.first_name`, `request.user.last_name`, `payment.reference`,
`booking.listing.title`, `booking.check_in_date`, `booking.check_out_date`. -/
def buildChapaPayload : Except String (List String) := do
  let a1 ← readAttr bookingAttributeNames "total_price"
  let a2 ← readAttr userAttributeNames "email"
  let a3 ← readAttr userAttributeNames "first_name"
  let a4 ← readAttr userAttributeNames "last_name"
  let a5 ← readAttr paymentAttributeNames "reference"
  let a6 ← readAttr bookingAttributeNames "listing"
  let a7 ← readAttr bookingAttributeNames "check_in_date"
  let a8 ← readAttr bookingAttributeNames "check_out_date"
  pure [a1, a2, a3, a4, a5, a6, a7, a8]

/-- A parsed gateway JSON response: HTTP status code, the outer
`response_data.get('status')`, the inner `response_data['data']['status']`,
and the `data` fields the views read. -/
structure ChapaResponse where
  status_code : Nat
  status : String
  data_status : String
  data_tx_ref : String
  data_checkout_url : String
  deriving DecidableEq, Repr

/-- Outcomes of POST /api/payments/initiate/. -/
inductive InitResult
  | notFound
  | integrityFailure
  | attributeFailure (name : String)
  | paymentUrl (checkout_url : String)
  | badRequest
  | serverError (msg : String)
  deriving DecidableEq, Repr

/-- Result of one initiate-payment request: the store, how many HTTP requests
reached the gateway, and the outcome. -/
structure InitOutcome where
  db : DB
  gatewayCalls : Nat
  result : InitResult
  deriving DecidableEq, Repr

/-- The `Payment.objects.create(...)` row of `initiate_payment` (views.py
lines 69-73): explicit kwargs `booking`, `amount = booking.total_price`,
`booking_reference = f'BK-{booking.booking_id}'`; the model defaults supply
`status='pending'` and `payment_method='chapa'`. -/
def newPaymentRow (db : DB) (booking : Booking) (newPaymentId : Nat) : Payment :=
  { payment_id := newPaymentId, booking := booking.booking_id,
    amount := total_price db booking, transaction_id := none,
    booking_reference := "BK-" ++ toString booking.booking_id,
    status := .pending, payment_method := "chapa" }

/-- Embedding of `PaymentViewSet.initiate_payment` (views.py lines 58-123).  `gw` is the
outcome of the (at most one) gateway call: `.error msg` stands for
`requests.exceptions.RequestException`, `.ok r` for a parsed response.  The
booking lookup uses the `booking_id` primary key; the payment row is created
first, then the payload is built, then the gateway is contacted. -/
def initiate_payment (db : DB) (bookingId : Option Nat) (newPaymentId : Nat)
    (gw : Except String ChapaResponse) : InitOutcome :=
  match db.bookings.find? (fun b => some b.booking_id == bookingId) with
  | none => ⟨db, 0, .notFound⟩
  | some booking =>
    match insertPayment db (newPaymentRow db booking newPaymentId) with
    | .error _ => ⟨db, 0, .integrityFailure⟩
    | .ok db' =>
      match buildChapaPayload with
      | .error n => ⟨db', 0, .attributeFailure n⟩
      | .ok _ =>
        match gw with
        | .error msg => ⟨setPaymentStatus db' newPaymentId .failed, 1, .serverError msg⟩
        | .ok r =>
          if r.status_code == 200 && r.status == "success" then
            ⟨setPaymentTx db' newPaymentId r.data_tx_ref, 1, .paymentUrl r.data_checkout_url⟩
          else
            ⟨setPaymentStatus db' newPaymentId .failed, 1, .badRequest⟩

/-- A single committed database write of the verify path; each `save()` runs
in its own autocommit transaction (no `transaction.atomic` in views.py). -/
inductive Write
  | bookingWrite (bid : Nat) (st : BookingStatus)
  | paymentWrite (pid : Nat) (st : PaymentStatus)
  deriving DecidableEq, Repr

def applyWrite (db : DB) : Write → DB
  | .bookingWrite bid st => setBookingStatus db bid st
  | .paymentWrite pid st => setPaymentStatus db pid st

def applyWrites (db : DB) (ws : List Write) : DB := ws.foldl applyWrite db

/-- The commits issued by the verify success branch (views.py lines 153-160),
in source order: `payment.booking.save()` first, `payment.save()` second. -/
def verifySuccessWrites (p : Payment) : List Write :=
  [.bookingWrite p.booking .confirmed, .paymentWrite p.payment_id .completed]

/-- Outcomes of GET /api/payments/verify/. -/
inductive VerifyResult
  | missingTxRef
  | notFound
  | verified (reference : String) (st : PaymentStatus) (amount : Int)
  | verificationFailed
  | serverError (msg : String)
  deriving DecidableEq, Repr

/-- Embedding of `PaymentViewSet.verify_payment` (views.py lines 126-171).  The payment is
matched by `booking_reference`; on an inner-status success the booking is
confirmed and the payment completed (two separate commits, modelled through
`verifySuccessWrites`); on an inner failure only the payment is written; a
`RequestException` is answered with a 500 and no write at all. -/
def verify_payment (db : DB) (tx_ref : Option String)
    (gw : Except String ChapaResponse) : DB × VerifyResult :=
  match tx_ref with
  | none => (db, .missingTxRef)
  | some t =>
    if t = "" then (db, .missingTxRef)
    else
      match db.payments.find? (fun q => q.booking_reference == t) with
      | none => (db, .notFound)
      | some payment =>
        match gw with
        | .error msg => (db, .serverError msg)
        | .ok r =>
          if r.status_code == 200 && r.status == "success" then
            if r.data_status == "success" then
              (applyWrites db (verifySuccessWrites payment),
               .verified payment.booking_reference .completed payment.amount)
            else
              (applyWrite db (.paymentWrite payment.payment_id .failed),
               .verified payment.booking_reference .failed payment.amount)
          else (db, .verificationFailed)

/-- One state transition of the system: a direct ORM insert (any code path may
create rows subject to the schema's constraints, e.g. the admin or a shell)
or one of the embedded HTTP operations. -/
inductive Step : DB → DB → Prop
  | ormInsertListing (db : DB) (l : Listing) :
      Step db { db with listings := db.listings ++ [l] }
  | ormInsertBooking (db db' : DB) (b : Booking) :
      insertBooking db b = .ok db' → Step db db'
  | ormInsertPayment (db db' : DB) (p : Payment) :
      insertPayment db p = .ok db' → Step db db'
  | apiCreate (db : DB) (q : List Nat) (r : CreateRequest) (nid : Nat) :
      Step db (bookingCreateViaApi db q r nid).db
  | apiUpdate (db : DB) (bid : Nat) (s e : Int) (st : BookingStatus) :
      Step db (bookingUpdateViaApi db bid s e st)
  | apiInitiate (db : DB) (bid : Option Nat) (nid : Nat) (gw : Except String ChapaResponse) :
      Step db (initiate_payment db bid nid gw).db
  | apiVerify (db : DB) (t : Option String) (gw : Except String ChapaResponse) :
      Step db (verify_payment db t gw).1

/-- States reachable from the empty store through the modelled operations. -/
inductive Reachable : DB → Prop
  | init : Reachable emptyDB
  | step {db db' : DB} : Reachable db → Step db db' → Reachable db'

/-- At most one Payment row per Booking: distinct payment rows reference
distinct bookings. -/
def atMostOnePaymentPerBooking (db : DB) : Prop :=
  db.payments.Pairwise (fun p q => p.booking ≠ q.booking)

/-- Pairwise-distinct booking references across the payment table. -/
def distinctReferences (db : DB) : Prop :=
  db.payments.Pairwise (fun p q => p.booking_reference ≠ q.booking_reference)

/-! ## Helper lemmas -/

theorem buildChapaPayload_eq : buildChapaPayload = .error "reference" := by decide

theorem bookingCreateViaApi_eq (db : DB) (q : List Nat) (r : CreateRequest) (nid : Nat) :
    bookingCreateViaApi db q r nid = ⟨db, q, .error (.integrity .notNullViolation)⟩ := rfl

theorem filter_isEmpty_false_iff {α} (l : List α) (f : α → Bool) :
    (l.filter f).isEmpty = false ↔ ∃ o ∈ l, f o = true := by
  have h1 : (l.filter f).isEmpty = false ↔ ¬ (l.filter f).isEmpty = true := by simp
  rw [h1, List.isEmpty_iff, List.filter_eq_nil_iff]
  push_neg
  simp

theorem filter_isEmpty_true_iff {α} (l : List α) (f : α → Bool) :
    (l.filter f).isEmpty = true ↔ ∀ o ∈ l, ¬ f o = true := by
  rw [List.isEmpty_iff, List.filter_eq_nil_iff]

/-! ## C1: behaviour of the two availability checks -/

/-- C1 (counterexample): the claim says a canceled booking never causes the
availability check to fail and a pending one conflicts; on the code,
`Booking.clean` flags a canceled overlapping booking (its queryset has no
status restriction) while `BookingDetailSerializer.validate` lets a pending
overlapping booking pass (its queryset keeps only `status='confirmed'`) —
both contradict the claimed `{pending, confirmed}` semantics, recorded here
against the claim's own predicate `specActiveOverlapConflict`. -/
theorem availability_claim_counterexample :
    (clean ⟨[⟨1, 9, 100⟩], [⟨1, some 1, 2, 0, 5, .canceled⟩], []⟩
        ⟨2, some 1, 3, 2, 7, .pending⟩ = .error .overlap
      ∧ specActiveOverlapConflict ⟨[⟨1, 9, 100⟩], [⟨1, some 1, 2, 0, 5, .canceled⟩], []⟩
          1 2 7 = false)
    ∧ (bookingDetailValidate ⟨[⟨1, 9, 100⟩], [⟨1, some 1, 2, 0, 5, .pending⟩], []⟩ none
          ⟨some 2, some 7, some 1, none, none⟩ = .ok ⟨some 2, some 7, some 1, none, none⟩
      ∧ specActiveOverlapConflict ⟨[⟨1, 9, 100⟩], [⟨1, some 1, 2, 0, 5, .pending⟩], []⟩
          1 2 7 = true) := by
  decide

/-- C1 (amended): `Booking.clean` reports a conflict iff some booking of the
property — of any status, canceled included — overlaps the candidate range
under `existing.start_date < new.end_date ∧ existing.end_date > new.start_date`;
`BookingDetailSerializer.validate` reports a conflict iff some booking with
status confirmed, other than the instance under update, overlaps; in both, a
booking sharing only the checkout/check-in boundary date never conflicts. -/
theorem availability_checks_characterization :
    ∀ (db : DB) (b : Booking) (inst : Option Nat) (pid : Nat),
      b.start_date < b.end_date → b.property = some pid →
      ((clean db b = .error .overlap ↔
          ∃ o ∈ db.bookings, o.property = some pid ∧
            o.start_date < b.end_date ∧ o.end_date > b.start_date)
        ∧ (bookingDetailValidate db inst
              { start_date := some b.start_date, end_date := some b.end_date,
                property_id := some pid, user_id := none, status := none } = .error .overlap ↔
            ∃ o ∈ db.bookings, o.property = some pid ∧ o.status = .confirmed ∧
              some o.booking_id ≠ inst ∧
              o.start_date < b.end_date ∧ o.end_date > b.start_date)
        ∧ (∀ oS oE : Int, oE = b.start_date ∨ oS = b.end_date →
            overlapsHalfOpen oS oE b.start_date b.end_date = false)) := by
  intro db b inst pid hlt hprop
  refine ⟨?_, ?_, ?_⟩
  · unfold clean
    rw [if_neg (by omega)]
    by_cases hq : (cleanOverlapQuery db b).isEmpty = true
    · rw [if_pos hq]
      unfold cleanOverlapQuery at hq
      rw [filter_isEmpty_true_iff] at hq
      constructor
      · intro h
        exact absurd h (by simp)
      · rintro ⟨o, ho, hpo, h1, h2⟩
        exact absurd (show (o.property == b.property
            && overlapsHalfOpen o.start_date o.end_date b.start_date b.end_date) = true by
          simp [overlapsHalfOpen, hprop, hpo, h1, h2]) (hq o ho)
    · rw [if_neg hq]
      constructor
      · intro _
        have hq' : (cleanOverlapQuery db b).isEmpty = false := by
          cases h : (cleanOverlapQuery db b).isEmpty
          · rfl
          · exact absurd h hq
        unfold cleanOverlapQuery at hq'
        rw [filter_isEmpty_false_iff] at hq'
        obtain ⟨o, ho, hf⟩ := hq'
        simp only [Bool.and_eq_true, beq_iff_eq, overlapsHalfOpen, decide_eq_true_eq] at hf
        exact ⟨o, ho, hf.1.trans hprop, hf.2.1, hf.2.2⟩
      · intro _
        rfl
  · have hred : bookingDetailValidate db inst
        ⟨some b.start_date, some b.end_date, some pid, none, none⟩
        = if b.start_date ≥ b.end_date then .error .dateOrder
          else if (detailOverlapQuery db inst pid b.start_date b.end_date).isEmpty then
            .ok ⟨some b.start_date, some b.end_date, some pid, none, none⟩
          else .error .overlap := rfl
    rw [hred, if_neg (by omega)]
    have hmem : ∀ o : Booking, o ∈ db.bookings →
        ((o ∈ detailOverlapQuery db inst pid b.start_date b.end_date) ↔
          (o.property = some pid ∧ o.status = .confirmed ∧ some o.booking_id ≠ inst ∧
            o.start_date < b.end_date ∧ o.end_date > b.start_date)) := by
      intro o _
      unfold detailOverlapQuery
      cases inst with
      | none =>
        simp [List.mem_filter, Bool.and_eq_true, beq_iff_eq, overlapsHalfOpen,
          decide_eq_true_eq, and_assoc]
        tauto
      | some iid =>
        simp [List.mem_filter, Bool.and_eq_true, beq_iff_eq, bne_iff_ne, overlapsHalfOpen,
          decide_eq_true_eq, and_assoc]
        tauto
    by_cases hq : (detailOverlapQuery db inst pid b.start_date b.end_date).isEmpty = true
    · rw [if_pos hq]
      rw [List.isEmpty_iff] at hq
      constructor
      · intro h
        exact absurd h (by simp)
      · rintro ⟨o, ho, hrest⟩
        have : o ∈ detailOverlapQuery db inst pid b.start_date b.end_date :=
          (hmem o ho).mpr hrest
        rw [hq] at this
        exact absurd this (List.not_mem_nil o)
    · rw [if_neg hq]
      constructor
      · intro _
        have hne : detailOverlapQuery db inst pid b.start_date b.end_date ≠ [] := by
          intro hnil
          exact hq (by rw [hnil]; rfl)
        obtain ⟨o, ho⟩ := List.exists_mem_of_ne_nil _ hne
        have hoin : o ∈ db.bookings := by
          have := ho
          unfold detailOverlapQuery at this
          cases inst with
          | none => exact (List.mem_filter.mp this).1
          | some iid => exact (List.mem_filter.mp (List.mem_filter.mp this).1).1
        exact ⟨o, hoin, (hmem o hoin).mp ho⟩
      · intro _
        rfl
  · intro oS oE h
    unfold overlapsHalfOpen
    rcases h with rfl | rfl
    · simp
    · simp

/-- C1 (witness): the characterization applied to a store holding one canceled
booking of property 1 over [0,5) and a candidate range [2,7). -/
theorem availability_checks_characterization_witness :
    clean ⟨[⟨1, 9, 100⟩], [⟨1, some 1, 2, 0, 5, .canceled⟩], []⟩
      ⟨2, some 1, 3, 2, 7, .pending⟩ = .error .overlap := by
  exact (availability_checks_characterization _ _ none 1 (by decide) rfl).1.mpr
    ⟨⟨1, some 1, 2, 0, 5, .canceled⟩, by decide, rfl, by decide, by decide⟩

/-! ## C2: the booking-create endpoint skips validation but persists nothing -/

/-- C2 (counterexample): two create requests with overlapping ranges on the
same property are both answered with a NOT NULL integrity error — the claim's
conclusion that both bookings end up persisted with active status is false,
because `BookingListSerializer` has no writable `property` field, so the
insert of `perform_create` always violates the NOT NULL constraint and no row
is ever written through this endpoint. -/
theorem api_create_overlap_scenario_persists_nothing :
    (bookingCreateViaApi ⟨[⟨1, 9, 100⟩], [], []⟩ []
        ⟨some 1, 2, 7, some .pending, 3⟩ 10).db = ⟨[⟨1, 9, 100⟩], [], []⟩
    ∧ (bookingCreateViaApi ⟨[⟨1, 9, 100⟩], [], []⟩ []
        ⟨some 1, 2, 7, some .pending, 3⟩ 10).result = .error (.integrity .notNullViolation)
    ∧ (bookingCreateViaApi
        (bookingCreateViaApi ⟨[⟨1, 9, 100⟩], [], []⟩ []
          ⟨some 1, 2, 7, some .pending, 3⟩ 10).db []
        ⟨some 1, 4, 9, some .pending, 4⟩ 11).db.bookings = [] := by
  decide

/-- C2 (amended): the create path of `BookingViewSet` invokes neither the
date-ordering check nor any overlap check — `BookingListSerializer`'s
object-level validation accepts every input unchanged and `Booking.clean` is
never called — but, because the serializer exposes no writable property
field, every create request fails at insert with a NOT NULL integrity error
and leaves the store and the notification queue unchanged, so no booking is
persisted through this endpoint at all. -/
theorem api_create_skips_validation_and_never_persists :
    (∀ a : BookingAttrs, bookingListValidate a = .ok a)
    ∧ ∀ (db : DB) (q : List Nat) (r : CreateRequest) (nid : Nat),
        bookingCreateViaApi db q r nid = ⟨db, q, .error (.integrity .notNullViolation)⟩ := by
  exact ⟨fun a => rfl, fun db q r nid => bookingCreateViaApi_eq db q r nid⟩

/-! ## C3: the verify-success path commits the two rows separately -/

/-- C3: on an inner-status success, `verify_payment` runs exactly the two
separate commits of `verifySuccessWrites` — `payment.booking.save()` first,
`payment.save()` second, with no enclosing transaction — and the state after
only the first commit (where execution stops if the process dies between the
two saves) has the Booking already `confirmed` while the Payment is still
`pending`, a reachable post-state the claim rules out. -/
theorem verify_success_two_commits_partial_state :
    (verify_payment
        ⟨[⟨1, 9, 100⟩], [⟨1, some 1, 2, 0, 5, .pending⟩],
          [⟨7, 1, 500, none, "BK-1", .pending, "chapa"⟩]⟩
        (some "BK-1") (.ok ⟨200, "success", "success", "tx", "url"⟩)).1
      = applyWrites
          ⟨[⟨1, 9, 100⟩], [⟨1, some 1, 2, 0, 5, .pending⟩],
            [⟨7, 1, 500, none, "BK-1", .pending, "chapa"⟩]⟩
          (verifySuccessWrites ⟨7, 1, 500, none, "BK-1", .pending, "chapa"⟩)
    ∧ (applyWrites
        ⟨[⟨1, 9, 100⟩], [⟨1, some 1, 2, 0, 5, .pending⟩],
          [⟨7, 1, 500, none, "BK-1", .pending, "chapa"⟩]⟩
        ((verifySuccessWrites ⟨7, 1, 500, none, "BK-1", .pending, "chapa"⟩).take 1)).bookings
      = [⟨1, some 1, 2, 0, 5, .confirmed⟩]
    ∧ (applyWrites
        ⟨[⟨1, 9, 100⟩], [⟨1, some 1, 2, 0, 5, .pending⟩],
          [⟨7, 1, 500, none, "BK-1", .pending, "chapa"⟩]⟩
        ((verifySuccessWrites ⟨7, 1, 500, none, "BK-1", .pending, "chapa"⟩).take 1)).payments
      = [⟨7, 1, 500, none, "BK-1", .pending, "chapa"⟩] := by
  decide

/-! ## C4: bad date ranges on the create endpoint raise no ValidationError -/

/-- C4: a create request with `start_date = end_date` through the actual
endpoint is not rejected by any date-ordering `ValidationError` — it fails
only with the NOT NULL integrity error every create hits — whereas the two
validation routines the claim cites, when they do run, raise the date-order
error without consulting the booking table at all (the result is the same for
every store, so the check precedes any overlap query). -/
theorem api_create_bad_dates_without_validation_error :
    (bookingCreateViaApi ⟨[⟨1, 9, 100⟩], [], []⟩ [] ⟨some 1, 5, 5, some .pending, 3⟩ 10
        = ⟨⟨[⟨1, 9, 100⟩], [], []⟩, [], .error (.integrity .notNullViolation)⟩)
    ∧ (∀ db : DB,
        bookingDetailValidate db none ⟨some 5, some 5, some 1, none, none⟩
          = .error .dateOrder)
    ∧ (∀ db : DB, clean db ⟨2, some 1, 3, 5, 5, .pending⟩ = .error .dateOrder) := by
  exact ⟨by decide, fun db => rfl, fun db => rfl⟩

/-! ## C6: transport failure during verification -/

/-- C6 (counterexample): a `verify_payment` call that hits a transport error
answers with the 500 error but does not touch the matched Payment: its status
stays `pending`, not `failed` as the claim states. -/
theorem verify_transport_claim_false :
    verify_payment
        ⟨[⟨1, 9, 100⟩], [⟨1, some 1, 2, 0, 5, .pending⟩],
          [⟨7, 1, 500, none, "BK-1", .pending, "chapa"⟩]⟩
        (some "BK-1") (.error "connection reset")
      = (⟨[⟨1, 9, 100⟩], [⟨1, some 1, 2, 0, 5, .pending⟩],
          [⟨7, 1, 500, none, "BK-1", .pending, "chapa"⟩]⟩, .serverError "connection reset")
    ∧ (⟨[⟨1, 9, 100⟩], [⟨1, some 1, 2, 0, 5, .pending⟩],
          [⟨7, 1, 500, none, "BK-1", .pending, "chapa"⟩]⟩ : DB).payments.map
        (fun q => q.status) = [.pending]
    ∧ PaymentStatus.pending ≠ PaymentStatus.failed := by
  decide

/-- C6 (amended): on a transport error the exception is answered with a 500
carrying the error message and the whole store — the matched Payment's status
included — is left unchanged; the verify path, unlike the initiate path, never
finalizes the Payment as `failed` on transport failure. -/
theorem verify_transport_error_leaves_state_unchanged :
    ∀ (db : DB) (t msg : String) (payment : Payment),
      t ≠ "" →
      db.payments.find? (fun q => q.booking_reference == t) = some payment →
      verify_payment db (some t) (.error msg) = (db, .serverError msg) := by
  intro db t msg payment ht hf
  simp [verify_payment, ht, hf]

/-- C6 (witness): the amended statement applied to a store with one pending
payment matched by its reference. -/
theorem verify_transport_error_leaves_state_unchanged_witness :
    verify_payment
        ⟨[⟨1, 9, 100⟩], [⟨1, some 1, 2, 0, 5, .pending⟩],
          [⟨7, 1, 500, none, "BK-1", .pending, "chapa"⟩]⟩
        (some "BK-1") (.error "timeout")
      = (⟨[⟨1, 9, 100⟩], [⟨1, some 1, 2, 0, 5, .pending⟩],
          [⟨7, 1, 500, none, "BK-1", .pending, "chapa"⟩]⟩, .serverError "timeout") := by
  exact verify_transport_error_leaves_state_unchanged _ _ _
    ⟨7, 1, 500, none, "BK-1", .pending, "chapa"⟩ (by decide) (by decide)

/-! ## C9: the create path never reaches the notification enqueue -/

/-- C9: the booking model has no `id` attribute (its primary key is
`booking_id`), so the `send_booking_confirmation_email.delay(booking.id)` line
of `perform_create` can never run to an enqueue: every create request leaves
the notification queue exactly as it was. -/
theorem create_path_never_enqueues_notification :
    readAttr bookingAttributeNames "id" = .error "id"
    ∧ ∀ (db : DB) (q : List Nat) (r : CreateRequest) (nid : Nat),
        (bookingCreateViaApi db q r nid).emailQueue = q := by
  exact ⟨by decide, fun db q r nid => by rw [bookingCreateViaApi_eq]⟩

/-! ## C7: the update-path overlap query excludes the booking's own row -/

/-- C7: validating an update of booking `x` through
`BookingDetailSerializer.validate` excludes `x`'s own persisted row from the
conflict queryset, so a new range that overlaps only `x`'s own stored range
(every other confirmed booking of the property being disjoint from it)
passes with no conflict reported. -/
theorem update_validation_excludes_own_row :
    ∀ (db : DB) (x : Booking) (pid : Nat) (s e : Int),
      x ∈ db.bookings → x.property = some pid → s < e →
      overlapsHalfOpen x.start_date x.end_date s e = true →
      (∀ o ∈ db.bookings, o.booking_id ≠ x.booking_id → o.property = some pid →
        o.status = .confirmed → overlapsHalfOpen o.start_date o.end_date s e = false) →
      bookingDetailValidate db (some x.booking_id)
          ⟨some s, some e, some pid, none, none⟩
        = .ok ⟨some s, some e, some pid, none, none⟩ := by
  intro db x pid s e hx hxp hse hov hothers
  have hred : bookingDetailValidate db (some x.booking_id)
      ⟨some s, some e, some pid, none, none⟩
      = if s ≥ e then .error .dateOrder
        else if (detailOverlapQuery db (some x.booking_id) pid s e).isEmpty then
          .ok ⟨some s, some e, some pid, none, none⟩
        else .error .overlap := rfl
  rw [hred, if_neg (by omega)]
  have hempty : detailOverlapQuery db (some x.booking_id) pid s e = [] := by
    unfold detailOverlapQuery
    rw [List.filter_eq_nil_iff]
    intro o ho
    obtain ⟨hoin, hbase⟩ := List.mem_filter.mp ho
    simp only [Bool.and_eq_true, beq_iff_eq] at hbase
    obtain ⟨⟨hpo, hovo⟩, hst⟩ := hbase
    simp only [bne_iff_ne, ne_eq, Decidable.not_not]
    by_contra hne
    rw [hothers o hoin hne hpo hst] at hovo
    exact absurd hovo (by simp)
  rw [hempty]
  rfl

/-- C7 (witness): updating booking 1 of property 1 from [0,5) to [2,7) (a
range overlapping only its own row; the other confirmed booking sits at
[10,12)) passes validation. -/
theorem update_validation_excludes_own_row_witness :
    bookingDetailValidate
        ⟨[⟨1, 9, 100⟩],
         [⟨1, some 1, 2, 0, 5, .confirmed⟩, ⟨2, some 1, 4, 10, 12, .confirmed⟩], []⟩
        (some 1) ⟨some 2, some 7, some 1, none, none⟩
      = .ok ⟨some 2, some 7, some 1, none, none⟩ := by
  exact update_validation_excludes_own_row _ ⟨1, some 1, 2, 0, 5, .confirmed⟩ 1 2 7
    (by decide) rfl (by decide) (by decide) (by decide)

/-! ## C5 and C10: initiate_payment -/

theorem insertPayment_ok_of_fresh {db : DB} {p : Payment}
    (h : ∀ q ∈ db.payments, q.payment_id ≠ p.payment_id ∧ q.booking ≠ p.booking ∧
      q.booking_reference ≠ p.booking_reference) :
    insertPayment db p = .ok { db with payments := db.payments ++ [p] } := by
  have hcond : db.payments.any (fun q =>
      q.payment_id == p.payment_id || q.booking == p.booking
        || q.booking_reference == p.booking_reference) = false := by
    rw [List.any_eq_false]
    intro q hq
    obtain ⟨h1, h2, h3⟩ := h q hq
    simp [h1, h2, h3]
  unfold insertPayment
  rw [hcond]
  rfl

theorem initiate_payment_reduce_notFound {db : DB} {bid : Option Nat} {nid : Nat}
    {gw : Except String ChapaResponse}
    (hf : db.bookings.find? (fun b => some b.booking_id == bid) = none) :
    initiate_payment db bid nid gw = ⟨db, 0, .notFound⟩ := by
  unfold initiate_payment
  rw [hf]

theorem initiate_payment_reduce_integrity {db : DB} {bid : Option Nat} {nid : Nat}
    {gw : Except String ChapaResponse} {booking : Booking} {e : DBErr}
    (hf : db.bookings.find? (fun b => some b.booking_id == bid) = some booking)
    (hins : insertPayment db (newPaymentRow db booking nid) = .error e) :
    initiate_payment db bid nid gw = ⟨db, 0, .integrityFailure⟩ := by
  unfold initiate_payment
  rw [hf]
  dsimp only
  rw [hins]

theorem initiate_payment_reduce_ok {db db' : DB} {bid : Option Nat} {nid : Nat}
    {gw : Except String ChapaResponse} {booking : Booking}
    (hf : db.bookings.find? (fun b => some b.booking_id == bid) = some booking)
    (hins : insertPayment db (newPaymentRow db booking nid) = .ok db') :
    initiate_payment db bid nid gw = ⟨db', 0, .attributeFailure "reference"⟩ := by
  unfold initiate_payment
  rw [hf]
  dsimp only
  rw [hins, buildChapaPayload_eq]

/-- C5: an initiate-payment call for a missing booking answers 404 and writes
nothing; for an existing booking (with the payment table fresh for it) it
appends exactly one Payment row whose status is `pending`, whose amount is
the booking's `total_price`, and whose `booking_reference` is the
deterministic string `BK-<booking_id>`; the insert keeps the references of
the payment table pairwise distinct. -/
theorem initiate_payment_creates_single_pending_payment :
    ∀ (db : DB) (bid nid : Nat) (gw : Except String ChapaResponse),
      (db.bookings.find? (fun b => some b.booking_id == some bid) = none →
        initiate_payment db (some bid) nid gw = ⟨db, 0, .notFound⟩)
      ∧ (∀ booking : Booking,
          db.bookings.find? (fun b => some b.booking_id == some bid) = some booking →
          (∀ q ∈ db.payments, q.payment_id ≠ nid ∧ q.booking ≠ booking.booking_id ∧
            q.booking_reference ≠ "BK-" ++ toString booking.booking_id) →
          ∃ p : Payment,
            (initiate_payment db (some bid) nid gw).db
              = { db with payments := db.payments ++ [p] }
            ∧ p.status = .pending
            ∧ p.amount = total_price db booking
            ∧ p.booking_reference = "BK-" ++ toString booking.booking_id
            ∧ (distinctReferences db →
                distinctReferences { db with payments := db.payments ++ [p] })) := by
  intro db bid nid gw
  constructor
  · intro h
    exact initiate_payment_reduce_notFound h
  · intro booking hf hfresh
    refine ⟨⟨nid, booking.booking_id, total_price db booking, none,
      "BK-" ++ toString booking.booking_id, .pending, "chapa"⟩, ?_, rfl, rfl, rfl, ?_⟩
    · have hins := @insertPayment_ok_of_fresh db
        ⟨nid, booking.booking_id, total_price db booking, none,
          "BK-" ++ toString booking.booking_id, .pending, "chapa"⟩ hfresh
      rw [initiate_payment_reduce_ok hf hins]
    · intro hdist
      unfold distinctReferences at *
      rw [List.pairwise_append]
      refine ⟨hdist, List.pairwise_singleton _ _, ?_⟩
      intro a ha b hb
      simp only [List.mem_singleton] at hb
      subst hb
      exact (hfresh a ha).2.2

/-- C5 (witness): the creation clause applied to a store holding booking 1 of
property 1 (price 100, five nights) and an empty payment table. -/
theorem initiate_payment_creates_single_pending_payment_witness :
    ∃ p : Payment,
      (initiate_payment ⟨[⟨1, 9, 100⟩], [⟨1, some 1, 2, 0, 5, .pending⟩], []⟩ (some 1) 7
          (.error "unreached")).db
        = { (⟨[⟨1, 9, 100⟩], [⟨1, some 1, 2, 0, 5, .pending⟩], []⟩ : DB) with
            payments := (⟨[⟨1, 9, 100⟩], [⟨1, some 1, 2, 0, 5, .pending⟩], []⟩ : DB).payments
              ++ [p] }
      ∧ p.status = .pending
      ∧ p.amount = total_price ⟨[⟨1, 9, 100⟩], [⟨1, some 1, 2, 0, 5, .pending⟩], []⟩
          ⟨1, some 1, 2, 0, 5, .pending⟩
      ∧ p.booking_reference = "BK-" ++ toString (1 : Nat)
      ∧ (distinctReferences ⟨[⟨1, 9, 100⟩], [⟨1, some 1, 2, 0, 5, .pending⟩], []⟩ →
          distinctReferences
            { (⟨[⟨1, 9, 100⟩], [⟨1, some 1, 2, 0, 5, .pending⟩], []⟩ : DB) with
              payments := (⟨[⟨1, 9, 100⟩], [⟨1, some 1, 2, 0, 5, .pending⟩],
                []⟩ : DB).payments ++ [p] }) := by
  exact (initiate_payment_creates_single_pending_payment
      ⟨[⟨1, 9, 100⟩], [⟨1, some 1, 2, 0, 5, .pending⟩], []⟩ 1 7 (.error "unreached")).2
    ⟨1, some 1, 2, 0, 5, .pending⟩ (by decide) (by decide)

/-- C10: an initiate-payment call on an existing booking persists the new
pending Payment row and then dies with an `AttributeError` on the
nonexistent attribute `reference` while building the gateway payload: the
result records zero gateway calls (the error precedes the HTTP request) and
the appended payment row stays in the store. -/
theorem initiate_attribute_error_after_persist :
    ∀ (db : DB) (bid nid : Nat) (gw : Except String ChapaResponse) (booking : Booking),
      db.bookings.find? (fun b => some b.booking_id == some bid) = some booking →
      (∀ q ∈ db.payments, q.payment_id ≠ nid ∧ q.booking ≠ booking.booking_id ∧
        q.booking_reference ≠ "BK-" ++ toString booking.booking_id) →
      initiate_payment db (some bid) nid gw
        = ⟨{ db with payments := db.payments ++
              [⟨nid, booking.booking_id, total_price db booking, none,
                "BK-" ++ toString booking.booking_id, .pending, "chapa"⟩] },
            0, .attributeFailure "reference"⟩ := by
  intro db bid nid gw booking hf hfresh
  have hins := @insertPayment_ok_of_fresh db
    ⟨nid, booking.booking_id, total_price db booking, none,
      "BK-" ++ toString booking.booking_id, .pending, "chapa"⟩ hfresh
  exact initiate_payment_reduce_ok hf hins

/-- C10 (witness): even a would-be successful gateway response is never
consumed — the call fails with the attribute error right after persisting the
pending payment for booking 1. -/
theorem initiate_attribute_error_after_persist_witness :
    initiate_payment ⟨[⟨1, 9, 100⟩], [⟨1, some 1, 2, 0, 5, .pending⟩], []⟩ (some 1) 7
        (.ok ⟨200, "success", "success", "tx", "url"⟩)
      = ⟨⟨[⟨1, 9, 100⟩], [⟨1, some 1, 2, 0, 5, .pending⟩],
          [⟨7, 1, 500, none, "BK-1", .pending, "chapa"⟩]⟩, 0, .attributeFailure "reference"⟩ := by
  have h := initiate_attribute_error_after_persist
    ⟨[⟨1, 9, 100⟩], [⟨1, some 1, 2, 0, 5, .pending⟩], []⟩ 1 7
    (.ok ⟨200, "success", "success", "tx", "url"⟩) ⟨1, some 1, 2, 0, 5, .pending⟩
    (by decide) (by decide)
  exact h.trans (by decide)

/-! ## C8: at most one Payment per Booking, re-initiation rejected -/

theorem insertBooking_payments {db db' : DB} {b : Booking}
    (h : insertBooking db b = .ok db') : db'.payments = db.payments := by
  unfold insertBooking at h
  split at h
  · cases h
  · split at h
    · cases h
    · cases h
      rfl

theorem insertPayment_inv {db db' : DB} {p : Payment}
    (h : insertPayment db p = .ok db') (hinv : atMostOnePaymentPerBooking db) :
    atMostOnePaymentPerBooking db' := by
  unfold insertPayment at h
  split at h
  · cases h
  · next hcond =>
    cases h
    unfold atMostOnePaymentPerBooking at *
    rw [List.pairwise_append]
    refine ⟨hinv, List.pairwise_singleton _ _, ?_⟩
    intro a ha b hb
    simp only [List.mem_singleton] at hb
    subst hb
    intro heq
    apply hcond
    rw [List.any_eq_true]
    exact ⟨a, ha, by simp [heq]⟩

theorem pairwise_booking_map {l : List Payment} (f : Payment → Payment)
    (hf : ∀ q, (f q).booking = q.booking)
    (h : l.Pairwise (fun p q => p.booking ≠ q.booking)) :
    (l.map f).Pairwise (fun p q => p.booking ≠ q.booking) := by
  rw [List.pairwise_map]
  exact h.imp (fun {a b} hab => by rw [hf a, hf b]; exact hab)

theorem setPaymentStatus_inv (db : DB) (pid : Nat) (st : PaymentStatus)
    (h : atMostOnePaymentPerBooking db) :
    atMostOnePaymentPerBooking (setPaymentStatus db pid st) := by
  unfold atMostOnePaymentPerBooking setPaymentStatus at *
  exact pairwise_booking_map _ (fun q => by split <;> rfl) h

theorem setPaymentTx_inv (db : DB) (pid : Nat) (tx : String)
    (h : atMostOnePaymentPerBooking db) :
    atMostOnePaymentPerBooking (setPaymentTx db pid tx) := by
  unfold atMostOnePaymentPerBooking setPaymentTx at *
  exact pairwise_booking_map _ (fun q => by split <;> rfl) h

theorem applyWrite_inv (db : DB) (w : Write) (h : atMostOnePaymentPerBooking db) :
    atMostOnePaymentPerBooking (applyWrite db w) := by
  cases w with
  | bookingWrite bid st => exact h
  | paymentWrite pid st => exact setPaymentStatus_inv db pid st h

theorem applyWrites_inv (ws : List Write) :
    ∀ db : DB, atMostOnePaymentPerBooking db →
      atMostOnePaymentPerBooking (applyWrites db ws) := by
  induction ws with
  | nil => exact fun db h => h
  | cons w ws ih => exact fun db h => ih _ (applyWrite_inv db w h)

theorem verify_payment_inv (db : DB) (t : Option String)
    (gw : Except String ChapaResponse) (h : atMostOnePaymentPerBooking db) :
    atMostOnePaymentPerBooking (verify_payment db t gw).1 := by
  unfold verify_payment
  rcases t with _ | s
  · exact h
  · dsimp only
    split
    · exact h
    · split
      · exact h
      · split
        · exact h
        · split
          · split
            · exact applyWrites_inv _ _ h
            · exact applyWrite_inv _ _ h
          · exact h

theorem initiate_payment_inv (db : DB) (bid : Option Nat) (nid : Nat)
    (gw : Except String ChapaResponse) (h : atMostOnePaymentPerBooking db) :
    atMostOnePaymentPerBooking (initiate_payment db bid nid gw).db := by
  cases hf : db.bookings.find? (fun b => some b.booking_id == bid) with
  | none => rw [initiate_payment_reduce_notFound hf]; exact h
  | some booking =>
    cases hins : insertPayment db (newPaymentRow db booking nid) with
    | error e => rw [initiate_payment_reduce_integrity hf hins]; exact h
    | ok db' => rw [initiate_payment_reduce_ok hf hins]; exact insertPayment_inv hins h

theorem step_inv {db db' : DB} (hs : Step db db') (h : atMostOnePaymentPerBooking db) :
    atMostOnePaymentPerBooking db' := by
  cases hs with
  | ormInsertListing l => exact h
  | ormInsertBooking db2 b hok =>
    unfold atMostOnePaymentPerBooking at *
    rw [insertBooking_payments hok]
    exact h
  | ormInsertPayment db2 p hok => exact insertPayment_inv hok h
  | apiCreate q r nid =>
    rw [bookingCreateViaApi_eq]
    exact h
  | apiUpdate bid s e st => exact h
  | apiInitiate bid nid gw => exact initiate_payment_inv db bid nid gw h
  | apiVerify t gw => exact verify_payment_inv db t gw h

/-- C8: in every state reachable through the modelled operations the payment
table holds at most one row per booking (the one-to-one constraint checked at
insert), and an initiate-payment call for a booking that already has a
Payment with non-failed status is answered with the integrity failure, with
the store unchanged and no second Payment created. -/
theorem one_payment_per_booking_and_reinitiate_rejected :
    (∀ db : DB, Reachable db → atMostOnePaymentPerBooking db)
    ∧ ∀ (db : DB) (bid nid : Nat) (gw : Except String ChapaResponse)
        (booking : Booking) (p : Payment),
        db.bookings.find? (fun b => some b.booking_id == some bid) = some booking →
        p ∈ db.payments → p.booking = booking.booking_id → p.status ≠ .failed →
        initiate_payment db (some bid) nid gw = ⟨db, 0, .integrityFailure⟩ := by
  constructor
  · intro db hr
    induction hr with
    | init => exact List.Pairwise.nil
    | step hr hs ih => exact step_inv hs ih
  · intro db bid nid gw booking p hf hp hpb _hst
    have hins : insertPayment db (newPaymentRow db booking nid) = .error .uniqueViolation := by
      unfold insertPayment
      rw [if_pos]
      rw [List.any_eq_true]
      refine ⟨p, hp, ?_⟩
      simp [newPaymentRow, hpb]
    exact initiate_payment_reduce_integrity hf hins

/-- C8 (witness): the invariant at the initial store, and the rejection of a
second initiate-payment call for booking 1, which already carries the pending
payment `BK-1`. -/
theorem one_payment_per_booking_and_reinitiate_rejected_witness :
    atMostOnePaymentPerBooking emptyDB
    ∧ initiate_payment
        ⟨[⟨1, 9, 100⟩], [⟨1, some 1, 2, 0, 5, .pending⟩],
          [⟨7, 1, 500, none, "BK-1", .pending, "chapa"⟩]⟩ (some 1) 8 (.error "unreached")
      = ⟨⟨[⟨1, 9, 100⟩], [⟨1, some 1, 2, 0, 5, .pending⟩],
          [⟨7, 1, 500, none, "BK-1", .pending, "chapa"⟩]⟩, 0, .integrityFailure⟩ := by
  exact ⟨one_payment_per_booking_and_reinitiate_rejected.1 emptyDB Reachable.init,
    one_payment_per_booking_and_reinitiate_rejected.2
      ⟨[⟨1, 9, 100⟩], [⟨1, some 1, 2, 0, 5, .pending⟩],
        [⟨7, 1, 500, none, "BK-1", .pending, "chapa"⟩]⟩ 1 8 (.error "unreached")
      ⟨1, some 1, 2, 0, 5, .pending⟩ ⟨7, 1, 500, none, "BK-1", .pending, "chapa"⟩
      (by decide) (by decide) rfl (by decide)⟩

end AlxTravel
